import Mathlib

/-!
Shallow embedding of the simple-smtp server (Go) for specification checking.

The embedded code is `cmd/smtp-server/main.go` (session state machine,
delivery helpers, retry scheduler) and the middleware package
(`middleware/auth.go`, the rate limiter file). Redis round-trips, the
bcrypt verifier and the base64 decoder are modelled as an explicit
environment record consumed by one iteration of the command loop.
-/

namespace SimpleSMTP

/-! ### String helpers mirroring Go's `strings` package (ASCII fragment).

The protocol traffic the server handles is ASCII, so Go's byte-indexed
slicing and Unicode-aware `TrimSpace` coincide with the character-level
functions below on every input the claims involve. -/

/-- ASCII part of Go's `unicode.IsSpace`, as used by `strings.TrimSpace`. -/
def goIsSpace (c : Char) : Bool :=
  c = ' ' || c = '\t' || c = '\n' || c = '\r' || c = '\x0b' || c = '\x0c'

/-- Go `strings.TrimSpace`. -/
def trimSpace (s : String) : String :=
  ⟨((s.data.dropWhile goIsSpace).reverse.dropWhile goIsSpace).reverse⟩

/-- Go `strings.Trim(s, "<>")` (the cutset used by the MAIL FROM handler). -/
def trimAngles (s : String) : String :=
  ⟨((s.data.dropWhile fun c => c = '<' || c = '>').reverse.dropWhile
      fun c => c = '<' || c = '>').reverse⟩

/-- Character-list core of Go `strings.HasPrefix`. -/
def charsStart : List Char → List Char → Bool
  | [], _ => true
  | _ :: _, [] => false
  | p :: ps, c :: cs => p = c && charsStart ps cs

/-- Go `strings.HasPrefix(s, pre)`. -/
def strStarts (s pre : String) : Bool :=
  charsStart pre.data s.data

/-- Go string slicing `s[n:]` (character-level; the dropped heads here are
always ASCII command verbs, so bytes = characters). -/
def strDrop (s : String) (n : Nat) : String :=
  ⟨s.data.drop n⟩

/-- Go `strings.Split(s, sep)` for a one-character separator: splits at
every occurrence, keeping empty fields; `Split("", sep) = [""]`. -/
def splitOnChar (sep : Char) : List Char → List (List Char)
  | [] => [[]]
  | c :: rest =>
    if c = sep then [] :: splitOnChar sep rest
    else
      match splitOnChar sep rest with
      | [] => [[c]]
      | p :: ps => (c :: p) :: ps

/-- Numeric code of a reply line (its first three digits). -/
def replyCode (r : String) : Nat :=
  (r.data.take 3).foldl (fun a c => a * 10 + (c.toNat - '0'.toNat)) 0

/-! ### Session data model (`cmd/smtp-server/main.go`). -/

/-- `SessionState` of the Go server. -/
inductive SessionState where
  | StateInit
  | StateHelo
  | StateMail
  | StateRcpt
  | StateData
deriving DecidableEq, Repr

/-- `SMTPSession` minus the socket handle (`conn` carries no protocol state). -/
structure SMTPSession where
  state : SessionState
  userName : String
  mailFrom : String
  rcpt : String
  data : String
  authenticated : Bool
deriving DecidableEq, Repr

/-- `(*SMTPSession).Reset`. -/
def SMTPSession.Reset (s : SMTPSession) : SMTPSession :=
  { s with mailFrom := "", rcpt := "", data := "", state := .StateHelo }

/-- Result of a Redis `HGet` on a user field: `redis.Nil`, another error,
or the stored value. -/
inductive LookupResult where
  | notFound
  | storeError
  | found (value : String)
deriving DecidableEq, Repr

/-- One-iteration environment: every external answer the command loop can
consume (client lines of the AUTH/DATA sub-dialogues, Redis results, the
bcrypt verdict). The `userDecodeOk` flag records whether the base64 decode
of the username line succeeded; the source drops that error (`_`), so the
step function never reads the flag. -/
structure Env where
  userDecoded : String
  userDecodeOk : Bool
  rateOk : Bool
  locked : Bool
  passDecoded : String
  passDecodeOk : Bool
  passwordLookup : LookupResult
  bcryptOk : Bool
  emailLookup : LookupResult
  dataLines : List String
  idResult : Option Nat
  marshalOk : Bool
  lpushOk : Bool
  now : Nat
deriving DecidableEq, Repr

/-- The message record built at end-of-DATA (`msg := map[string]any{...}`);
`fromField`/`toField` are the map's `"from"`/`"to"` entries. `error` is
the `"error"` entry added by `AddToRetry`, absent at enqueue time. -/
structure QueuedMsg where
  id : Nat
  username : String
  fromField : String
  toField : String
  data : String
  time : Nat
  retry : Nat
  error : Option String
deriving DecidableEq, Repr

/-- Store side effects performed during one loop iteration. -/
structure Effects where
  validateCalled : Bool := false
  checkLockCalled : Bool := false
  increaseFailsCalled : Bool := false
  failCounterDeleted : Bool := false
  enqueued : Option QueuedMsg := none
deriving DecidableEq, Repr

/-- Whether the handler loops (`continue`/fallthrough) or returns (QUIT). -/
inductive Next where
  | cont
  | close
deriving DecidableEq, Repr

/-- Outcome of one iteration of the command loop: reply lines written (in
order, prompts included), resulting session, control flow, side effects. -/
structure StepResult where
  replies : List String
  session : SMTPSession
  next : Next
  effects : Effects
deriving DecidableEq, Repr

/-- Username prompt `334 VXNlcm5hbWU6`. -/
def promptUser : String := "334 VXNlcm5hbWU6\r\n"

/-- Password prompt `334 UGFzc3dvcmQ6`. -/
def promptPass : String := "334 UGFzc3dvcmQ6\r\n"

/-- `(*SMTPSession).validateSession`: `none` means the check passed;
`some r` is the failure reply written. -/
def validateSession (s : SMTPSession) (valid : SessionState) : Option String :=
  if s.authenticated = false then some "530 Authentication required\r\n"
  else if s.state ≠ valid then some "503 Bad sequence of commands\r\n"
  else none

/-- The `AUTH LOGIN` branch of the switch. The decoded username is used
whether or not the decode succeeded (the source ignores the error). -/
def authLoginStep (env : Env) (s : SMTPSession) : StepResult :=
  let username := env.userDecoded
  if env.rateOk = false then
    { replies := [promptUser, "454 Too many login attempts\r\n"]
      session := s, next := .cont
      effects := { validateCalled := true } }
  else if env.locked = true then
    { replies := [promptUser, "535 Account temporarily locked\r\n"]
      session := s, next := .cont
      effects := { validateCalled := true, checkLockCalled := true } }
  else
    match env.passwordLookup with
    | .notFound =>
      { replies := [promptUser, promptPass, "535 Authentication failed\r\n"]
        session := s, next := .cont
        effects := { validateCalled := true, checkLockCalled := true,
                     increaseFailsCalled := true } }
    | .storeError =>
      { replies := [promptUser, promptPass, "451 Local error\r\n"]
        session := s, next := .cont
        effects := { validateCalled := true, checkLockCalled := true } }
    | .found _hash =>
      if env.bcryptOk = false then
        { replies := [promptUser, promptPass, "535 Authentication failed\r\n"]
          session := s, next := .cont
          effects := { validateCalled := true, checkLockCalled := true,
                       increaseFailsCalled := true } }
      else
        { replies := [promptUser, promptPass, "235 Authentication successful\r\n"]
          session := { s with authenticated := true, state := .StateInit,
                              userName := username }
          next := .cont
          effects := { validateCalled := true, checkLockCalled := true,
                       failCounterDeleted := true } }

/-- The `MAIL FROM:` branch; `line` is the trimmed command line. -/
def mailFromStep (env : Env) (s : SMTPSession) (line : String) : StepResult :=
  match validateSession s .StateHelo with
  | some r => { replies := [r], session := s, next := .cont, effects := {} }
  | none =>
    match env.emailLookup with
    | .notFound =>
      { replies := ["535 Authentication failed\r\n"], session := s
        next := .cont, effects := {} }
    | .storeError =>
      if s.userName = "" then
        { replies := ["535 Authentication failed\r\n"], session := s
          next := .cont, effects := {} }
      else
        { replies := ["451 Local error\r\n"], session := s
          next := .cont, effects := {} }
    | .found dbUserEmail =>
      if s.userName = "" then
        { replies := ["535 Authentication failed\r\n"], session := s
          next := .cont, effects := {} }
      else
        if dbUserEmail ≠ trimAngles (trimSpace (strDrop line 10)) then
          { replies := ["535 Authentication failed\r\n"], session := s
            next := .cont, effects := {} }
        else
          { replies := ["250 OK\r\n"]
            session := { s with state := .StateMail, mailFrom := line }
            next := .cont, effects := {} }

/-- The `RCPT TO:` branch; `line` is the trimmed command line. -/
def rcptStep (s : SMTPSession) (line : String) : StepResult :=
  match validateSession s .StateMail with
  | some r => { replies := [r], session := s, next := .cont, effects := {} }
  | none =>
    { replies := ["250 OK\r\n"]
      session := { s with state := .StateRcpt, rcpt := line }
      next := .cont, effects := {} }

/-- The DATA body loop: each read line is trimmed; a line that trims to
`"."` stops the loop; every other line is appended followed by `"\n"`.
Modelled on streams that contain the terminator (the source busy-loops on
a stream that ends without one, so no session ever leaves that loop). -/
def readData : List String → String
  | [] => ""
  | l :: ls =>
    let dl := trimSpace l
    if dl = "." then "" else dl ++ "\n" ++ readData ls

/-- The `DATA` branch of the switch. -/
def dataStep (env : Env) (s : SMTPSession) : StepResult :=
  match validateSession s .StateRcpt with
  | some r => { replies := [r], session := s, next := .cont, effects := {} }
  | none =>
    let p354 := "354 End data with <CR><LF>.<CR><LF>\r\n"
    let s2 : SMTPSession :=
      { s with state := .StateData, data := readData env.dataLines }
    match env.idResult with
    | none =>
      { replies := [p354, "451 Local error in processing\r\n"]
        session := s2, next := .cont, effects := {} }
    | some id =>
      let msg : QueuedMsg :=
        { id := id, username := s2.userName, fromField := s2.mailFrom
          toField := s2.rcpt, data := s2.data, time := env.now
          retry := 0, error := none }
      if env.marshalOk = false then
        { replies := [p354, "451 Local error in processing\r\n"]
          session := s2, next := .cont, effects := {} }
      else if env.lpushOk = false then
        { replies := [p354, "451 Queue error\r\n"]
          session := s2, next := .cont, effects := {} }
      else
        { replies := [p354, "250 Message accepted\r\n"]
          session := s2.Reset, next := .cont
          effects := { enqueued := some msg } }

/-- The `switch` of `handleConnection`, on the already-trimmed line. -/
def dispatchLine (env : Env) (s : SMTPSession) (line : String) : StepResult :=
  if strStarts line "AUTH LOGIN" then authLoginStep env s
  else if strStarts line "HELO" then
    match validateSession s .StateInit with
    | some r => { replies := [r], session := s, next := .cont, effects := {} }
    | none =>
      { replies := ["250 Hello\r\n"]
        session := { s with state := .StateHelo }
        next := .cont, effects := {} }
  else if strStarts line "MAIL FROM:" then mailFromStep env s line
  else if strStarts line "RCPT TO:" then rcptStep s line
  else if line = "DATA" then dataStep env s
  else if line = "RSET" then
    { replies := ["250 OK\r\n"], session := s.Reset
      next := .cont, effects := {} }
  else if line = "QUIT" then
    { replies := ["221 Bye\r\n"], session := s, next := .close, effects := {} }
  else
    { replies := ["500 Syntax error, command unrecognized\r\n"]
      session := s, next := .cont, effects := {} }

/-- One iteration of the command loop of `handleConnection`: trim the raw
line, then dispatch. -/
def processLine (env : Env) (s : SMTPSession) (rawLine : String) : StepResult :=
  dispatchLine env s (trimSpace rawLine)

/-! ### Middleware (`middleware/auth.go` and the rate-limiter file).

Durations are modelled in nanoseconds, the unit of Go's `time.Duration`.
Redis `INCR` is the store's atomic increment; against a given prior
counter value it returns that value plus one, which is how the functions
below consume it. -/

/-- `time.Second` in nanoseconds. -/
def nsPerSec : Nat := 1000000000

/-- `time.Minute` in nanoseconds. -/
def nsPerMin : Nat := 60 * nsPerSec

/-- `middleware.RateLimiter`. -/
structure RateLimiter where
  IPLimit : Int
  UserLimit : Int
  duration : Nat
deriving DecidableEq, Repr

/-- `middleware.NewRateLimit` (store handle omitted). -/
def NewRateLimit (ip user : Int) (d : Nat) : RateLimiter :=
  { IPLimit := ip, UserLimit := user, duration := d }

/-- Observable outcome of one `Validate` call: post-increment counters,
the TTL applied to each key (when one was), and the returned Bool. -/
structure RLStep where
  ipCount : Int
  userCount : Int
  ipExpire : Option Nat
  userExpire : Option Nat
  ok : Bool
deriving DecidableEq, Repr

/-- `(*RateLimiter).Validate`, as a function of the prior counter values
`ipCount0`/`userCount0` held by the store for the two keys. -/
def RateLimiter.Validate (r : RateLimiter) (ipCount0 userCount0 : Int) : RLStep :=
  let ipCount := ipCount0 + 1
  let userCount := userCount0 + 1
  { ipCount := ipCount
    userCount := userCount
    ipExpire := if ipCount = 1 then some r.duration else none
    userExpire := if userCount = 1 then some r.duration else none
    ok := !(decide (ipCount > r.IPLimit) || decide (userCount > r.UserLimit)) }

/-- `middleware.Auth`. -/
structure Auth where
  failLimit : Int
  lockDuration : Nat
deriving DecidableEq, Repr

/-- `middleware.SetupAuth` (store handle omitted). -/
def SetupAuth (l : Int) (d : Nat) : Auth :=
  { failLimit := l, lockDuration := d }

/-- Observable outcome of one `IncreaseFails` call: post-increment fail
count, the TTL attached to the fail key (when one was), and the duration
the lock key was set with (when it was). -/
structure FailStep where
  fails : Nat
  ttl : Option Nat
  lockSet : Option Nat
deriving DecidableEq, Repr

/-- `(*Auth).IncreaseFails`, as a function of the prior counter value
`fails0` held by the store for `auth:fail:user:<u>`. -/
def Auth.IncreaseFails (a : Auth) (fails0 : Nat) : FailStep :=
  let fails := fails0 + 1
  let ttl := if fails = 1 then some (10 * nsPerMin) else none
  if fails < 5 then { fails := fails, ttl := ttl, lockSet := none }
  else
    let d := if fails ≥ 15 then a.lockDuration * 6
             else if fails ≥ 10 then a.lockDuration * 3
             else a.lockDuration
    { fails := fails, ttl := ttl, lockSet := some d }

/-- `main.go` line 68: `rl = middleware.NewRateLimit(rdb, 20, 5, 5*time.Minute)`. -/
def rlConfig : RateLimiter := NewRateLimit 20 5 (5 * nsPerMin)

/-- `main.go` line 69: `auth = middleware.SetupAuth(rdb, 5, 10*time.Second)`. -/
def authConfig : Auth := SetupAuth 5 (10 * nsPerSec)

/-! ### Delivery worker helpers (`cmd/smtp-server/main.go`). -/

/-- `getDomain`: `strings.Split(email, "@")`, then the second part when
there are exactly two, else `""`. -/
def getDomain (email : String) : String :=
  let parts := splitOnChar '@' email.data
  if parts.length ≠ 2 then "" else ⟨parts.getD 1 []⟩

/-- The `LocalDomains` map (keys with value `true`). -/
def LocalDomains : List String := ["myserver.local"]

/-- The `LocalDomains[domain]` test of `SaveMailWorker` on a message's
`"to"` field: whether the local-domain branch is taken. -/
def localBranch (toField : String) : Bool :=
  LocalDomains.contains (getDomain toField)

/-! ### Retry scheduler (`AddToRetry`). -/

/-- Store writes performed by one `AddToRetry` call: the payload pushed
onto `failed_mail_queue` (if any) and the member/score pair added to
`mail_retry_queue` (if any). -/
structure RetryOutcome where
  deadLetter : Option QueuedMsg
  retryInsert : Option (QueuedMsg × Nat)
deriving DecidableEq, Repr

/-- `AddToRetry(msg, err, nextAttempt)`. The source sets `msg["error"]`
first, then computes `tries = msg["retry"] + 1` (the type assertion on a
decoded JSON number always succeeds, defaulting to 0 is unreachable for
queue payloads); on `tries > 5` it pushes the message — with its `retry`
field still at the old value — onto the dead-letter list and returns,
otherwise it stores the incremented count and inserts into the retry
sorted set with `score = nextAttempt`. -/
def AddToRetry (msg : QueuedMsg) (err : String) (nextAttempt : Nat) : RetryOutcome :=
  let msg1 := { msg with error := some err }
  let tries := msg1.retry + 1
  if tries > 5 then { deadLetter := some msg1, retryInsert := none }
  else
    { deadLetter := none
      retryInsert := some ({ msg1 with retry := tries }, nextAttempt) }

/-! ### Spec-side definitions (for refinement comparisons only). -/

/-- The trimmed lines read by the DATA loop before its terminator (the
"preceding lines" of the body phase). -/
def dotFreeLines : List String → List String
  | [] => []
  | l :: ls =>
    let dl := trimSpace l
    if dl = "." then [] else dl :: dotFreeLines ls

/-- Modelled from the spec's words: "the concatenation of those lines
joined by newline" — the lines interleaved with a single `"\n"` and no
trailing newline. Compared against `readData`, the accumulation the
source performs. -/
def joinedByNewline : List String → String
  | [] => ""
  | [l] => l
  | l :: ls => l ++ "\n" ++ joinedByNewline ls

/-! ### Helper lemmas. -/

lemma charsStart_cons_iff (p : Char) (ps cs : List Char) :
    charsStart (p :: ps) cs = true ↔
      ∃ rest, cs = p :: rest ∧ charsStart ps rest = true := by
  cases cs with
  | nil => simp [charsStart]
  | cons c cs' =>
    simp only [charsStart, Bool.and_eq_true, decide_eq_true_eq]
    constructor
    · rintro ⟨rfl, h2⟩
      exact ⟨cs', rfl, h2⟩
    · rintro ⟨rest, heq, h2⟩
      cases heq
      exact ⟨rfl, h2⟩

lemma charsStart_head_ne (p c : Char) (ps cs : List Char) (h : p ≠ c) :
    charsStart (p :: ps) (c :: cs) = false := by
  simp [charsStart, h]

lemma charsStart_append (xs ys : List Char) : charsStart xs (xs ++ ys) = true := by
  induction xs with
  | nil => rfl
  | cons c cs ih => simp [charsStart, ih]

lemma strStarts_false_head (s pre : String) (c p : Char) (cs ps : List Char)
    (hs : s.data = c :: cs) (hp : pre.data = p :: ps) (h : p ≠ c) :
    strStarts s pre = false := by
  unfold strStarts
  rw [hs, hp]
  exact charsStart_head_ne p c ps cs h

lemma strStarts_self_append (pre x : String) : strStarts (pre ++ x) pre = true :=
  charsStart_append pre.data x.data

lemma validateSession_some (s : SMTPSession) (v : SessionState) (r : String)
    (h : validateSession s v = some r) :
    r = "530 Authentication required\r\n" ∨
      r = "503 Bad sequence of commands\r\n" := by
  unfold validateSession at h
  split_ifs at h <;> simp_all

lemma validateSession_none (s : SMTPSession) (v : SessionState)
    (hauth : s.authenticated = true) (hst : s.state = v) :
    validateSession s v = none := by
  simp [validateSession, hauth, hst]

lemma validateSession_unauth (s : SMTPSession) (v : SessionState)
    (hauth : s.authenticated = false) :
    validateSession s v = some "530 Authentication required\r\n" := by
  simp [validateSession, hauth]

lemma dispatch_auth (env : Env) (s : SMTPSession) (line : String)
    (hA : strStarts line "AUTH LOGIN" = true) :
    dispatchLine env s line = authLoginStep env s := by
  unfold dispatchLine
  rw [hA]
  simp

lemma dispatch_mail (env : Env) (s : SMTPSession) (line : String)
    (hA : strStarts line "AUTH LOGIN" = false)
    (hH : strStarts line "HELO" = false)
    (hM : strStarts line "MAIL FROM:" = true) :
    dispatchLine env s line = mailFromStep env s line := by
  unfold dispatchLine
  rw [hA, hH, hM]
  simp

lemma dispatch_rcpt (env : Env) (s : SMTPSession) (line : String)
    (hA : strStarts line "AUTH LOGIN" = false)
    (hH : strStarts line "HELO" = false)
    (hM : strStarts line "MAIL FROM:" = false)
    (hR : strStarts line "RCPT TO:" = true) :
    dispatchLine env s line = rcptStep s line := by
  unfold dispatchLine
  rw [hA, hH, hM, hR]
  simp

lemma mail_line_heads (line : String) (hM : strStarts line "MAIL FROM:" = true) :
    strStarts line "AUTH LOGIN" = false ∧ strStarts line "HELO" = false := by
  have h0 : charsStart ('M' :: "AIL FROM:".data) line.data = true := hM
  obtain ⟨rest, hdata, -⟩ := (charsStart_cons_iff _ _ _).mp h0
  exact ⟨strStarts_false_head line _ 'M' 'A' rest "UTH LOGIN".data hdata rfl (by decide),
         strStarts_false_head line _ 'M' 'H' rest "ELO".data hdata rfl (by decide)⟩

lemma rcpt_line_heads (line : String) (hR : strStarts line "RCPT TO:" = true) :
    strStarts line "AUTH LOGIN" = false ∧ strStarts line "HELO" = false ∧
      strStarts line "MAIL FROM:" = false := by
  have h0 : charsStart ('R' :: "CPT TO:".data) line.data = true := hR
  obtain ⟨rest, hdata, -⟩ := (charsStart_cons_iff _ _ _).mp h0
  exact ⟨strStarts_false_head line _ 'R' 'A' rest "UTH LOGIN".data hdata rfl (by decide),
         strStarts_false_head line _ 'R' 'H' rest "ELO".data hdata rfl (by decide),
         strStarts_false_head line _ 'R' 'M' rest "AIL FROM:".data hdata rfl (by decide)⟩

lemma strDrop_mail (x : String) : strDrop ("MAIL FROM:" ++ x) 10 = x := by
  unfold strDrop
  show String.mk (("MAIL FROM:".data ++ x.data).drop 10) = x
  rw [show (10 : Nat) = "MAIL FROM:".data.length from rfl, List.drop_left]

/-! ### Concrete fixtures used by witnesses and counterexamples. -/

/-- Environment of spec scenario S1: user `testuser`, bound email
`testuser@example.com`, all store operations succeeding. -/
def baseEnv : Env :=
  { userDecoded := "testuser", userDecodeOk := true, rateOk := true
    locked := false, passDecoded := "TestPassword123", passDecodeOk := true
    passwordLookup := .found "bcrypt-hash", bcryptOk := true
    emailLookup := .found "testuser@example.com"
    dataLines := ["Subject: Test", "Hello World!", "."]
    idResult := some 42, marshalOk := true, lpushOk := true, now := 1000 }

/-- A freshly accepted, unauthenticated session. -/
def freshSession : SMTPSession :=
  { state := .StateInit, userName := "", mailFrom := "", rcpt := ""
    data := "", authenticated := false }

/-- An authenticated session that has sent HELO. -/
def heloSession : SMTPSession :=
  { state := .StateHelo, userName := "testuser", mailFrom := "", rcpt := ""
    data := "", authenticated := true }

/-- An authenticated session with a full transaction pending. -/
def rcptSession : SMTPSession :=
  { state := .StateRcpt, userName := "testuser"
    mailFrom := "MAIL FROM:<testuser@example.com>"
    rcpt := "RCPT TO:<testuser2@example.com>", data := "", authenticated := true }

/-! ### C1. -/

/-- C1 counterexample: on an unauthenticated session the unrecognized
command `NOOP` — which is none of AUTH LOGIN, RSET, QUIT — is answered
with reply code 500, not 530 as the claim states. -/
theorem c1_counterexample :
    freshSession.authenticated = false ∧
    (processLine baseEnv freshSession "NOOP").replies.map replyCode = [500] ∧
    (processLine baseEnv freshSession "NOOP").replies ≠
      ["530 Authentication required\r\n"] := by decide

lemma helo_line_head (line : String) (hH : strStarts line "HELO" = true) :
    strStarts line "AUTH LOGIN" = false := by
  have h0 : charsStart ('H' :: "ELO".data) line.data = true := hH
  obtain ⟨rest, hdata, -⟩ := (charsStart_cons_iff _ _ _).mp h0
  exact strStarts_false_head line _ 'H' 'A' rest "UTH LOGIN".data hdata rfl (by decide)

/-- C1 (amended): while `authenticated = false`, each recognized state
command — a line starting with HELO, MAIL FROM: or RCPT TO:, or equal to
DATA — is answered with exactly the single reply 530; a line matching
none of the commands of the switch is answered with exactly the single
reply 500; and no command line other than AUTH LOGIN, RSET and QUIT ever
receives a reply in the 2xx or 3xx range. -/
theorem c1_unauthenticated_gate (env : Env) (s : SMTPSession) (raw : String)
    (hauth : s.authenticated = false) :
    (strStarts (trimSpace raw) "HELO" = true →
      (processLine env s raw).replies = ["530 Authentication required\r\n"]) ∧
    (strStarts (trimSpace raw) "MAIL FROM:" = true →
      (processLine env s raw).replies = ["530 Authentication required\r\n"]) ∧
    (strStarts (trimSpace raw) "RCPT TO:" = true →
      (processLine env s raw).replies = ["530 Authentication required\r\n"]) ∧
    (trimSpace raw = "DATA" →
      (processLine env s raw).replies = ["530 Authentication required\r\n"]) ∧
    (strStarts (trimSpace raw) "AUTH LOGIN" = false →
      strStarts (trimSpace raw) "HELO" = false →
      strStarts (trimSpace raw) "MAIL FROM:" = false →
      strStarts (trimSpace raw) "RCPT TO:" = false →
      trimSpace raw ≠ "DATA" → trimSpace raw ≠ "RSET" → trimSpace raw ≠ "QUIT" →
      (processLine env s raw).replies =
        ["500 Syntax error, command unrecognized\r\n"]) ∧
    (strStarts (trimSpace raw) "AUTH LOGIN" = false →
      trimSpace raw ≠ "RSET" → trimSpace raw ≠ "QUIT" →
      ∀ r ∈ (processLine env s raw).replies,
        ¬(200 ≤ replyCode r ∧ replyCode r < 400)) := by
  refine ⟨fun hH => ?_, fun hM => ?_, fun hR => ?_, fun hD => ?_, ?_, ?_⟩
  · have hA := helo_line_head _ hH
    unfold processLine dispatchLine
    rw [hA, hH]
    simp [validateSession_unauth s _ hauth]
  · obtain ⟨hA, hH⟩ := mail_line_heads _ hM
    unfold processLine dispatchLine
    rw [hA, hH, hM]
    simp [mailFromStep, validateSession_unauth s _ hauth]
  · obtain ⟨hA, hH, hM⟩ := rcpt_line_heads _ hR
    unfold processLine dispatchLine
    rw [hA, hH, hM, hR]
    simp [rcptStep, validateSession_unauth s _ hauth]
  · have hd : processLine env s raw = dataStep env s := by
      unfold processLine
      rw [hD]
      rfl
    rw [hd]
    simp [dataStep, validateSession_unauth s _ hauth]
  · intro hA hH hM hR hD hRs hQ
    unfold processLine dispatchLine
    simp [hA, hH, hM, hR, hD, hRs, hQ]
  · intro hA hRs hQ
    have hdisj : (processLine env s raw).replies =
        ["530 Authentication required\r\n"] ∨
        (processLine env s raw).replies =
          ["500 Syntax error, command unrecognized\r\n"] := by
      unfold processLine dispatchLine
      split_ifs <;>
        first
        | exact absurd ‹strStarts (trimSpace raw) "AUTH LOGIN" = true›
            (by rw [hA]; simp)
        | exact absurd ‹trimSpace raw = "RSET"› hRs
        | exact absurd ‹trimSpace raw = "QUIT"› hQ
        | simp [mailFromStep, rcptStep, dataStep,
                validateSession_unauth s _ hauth]
    rcases hdisj with h | h <;> rw [h] <;> intro r hr <;> simp at hr <;>
      subst hr <;> decide

/-- C1 witness: on a fresh unauthenticated session, a HELO command gets
exactly 530 and the unrecognized command EHLO x gets exactly 500. -/
theorem c1_unauthenticated_gate_witness :
    (processLine baseEnv freshSession "HELO localhost").replies =
      ["530 Authentication required\r\n"] ∧
    (processLine baseEnv freshSession "EHLO x").replies =
      ["500 Syntax error, command unrecognized\r\n"] :=
  ⟨(c1_unauthenticated_gate baseEnv freshSession "HELO localhost" rfl).1
      (by decide),
   (c1_unauthenticated_gate baseEnv freshSession "EHLO x" rfl).2.2.2.2.1
      (by decide) (by decide) (by decide) (by decide) (by decide) (by decide)
      (by decide)⟩

/-! ### C2. -/

/-- C2 counterexample: with the queue push failing, end-of-DATA replies
451 Queue error but the session stays in state DATA with the transaction
fields still populated — not in HELO with the transaction discarded as
the claim states. -/
theorem c2_counterexample :
    (processLine { baseEnv with lpushOk := false } rcptSession "DATA").replies =
      ["354 End data with <CR><LF>.<CR><LF>\r\n", "451 Queue error\r\n"] ∧
    (processLine { baseEnv with lpushOk := false } rcptSession "DATA").session.state ≠
      .StateHelo ∧
    (processLine { baseEnv with lpushOk := false } rcptSession "DATA").session.state =
      .StateData ∧
    (processLine { baseEnv with lpushOk := false } rcptSession "DATA").session.mailFrom ≠
      "" := by decide

/-- C2 (amended): on end-of-DATA with an id minted and the record
serialized, a failed queue push replies 451 Queue error and leaves the
session in state DATA with the transaction fields retained (the body just
read included), enqueuing nothing; a successful push replies 250 Message
accepted, resets the transaction fields, returns the state to HELO, keeps
the connection open, and enqueues the record with `retry = 0`. -/
theorem c2_commit_outcomes (env : Env) (s : SMTPSession) (raw : String) (id : Nat)
    (hline : trimSpace raw = "DATA")
    (hauth : s.authenticated = true) (hst : s.state = .StateRcpt)
    (hid : env.idResult = some id) (hm : env.marshalOk = true) :
    (env.lpushOk = false →
      (processLine env s raw).replies =
        ["354 End data with <CR><LF>.<CR><LF>\r\n", "451 Queue error\r\n"] ∧
      (processLine env s raw).session =
        { s with state := .StateData, data := readData env.dataLines } ∧
      (processLine env s raw).effects.enqueued = none ∧
      (processLine env s raw).next = .cont) ∧
    (env.lpushOk = true →
      (processLine env s raw).replies =
        ["354 End data with <CR><LF>.<CR><LF>\r\n", "250 Message accepted\r\n"] ∧
      (processLine env s raw).session =
        { s with state := .StateHelo, mailFrom := "", rcpt := "", data := "" } ∧
      (processLine env s raw).effects.enqueued =
        some { id := id, username := s.userName, fromField := s.mailFrom
               toField := s.rcpt, data := readData env.dataLines
               time := env.now, retry := 0, error := none } ∧
      (processLine env s raw).next = .cont) := by
  have hd : processLine env s raw = dataStep env s := by
    unfold processLine
    rw [hline]
    rfl
  refine ⟨fun hl => ?_, fun hl => ?_⟩ <;>
    rw [hd] <;>
    simp [dataStep, validateSession, hauth, hst, hid, hm, hl, SMTPSession.Reset]

/-- C2 witness: the amended theorem applied to the pending transaction of
scenario S1 with a successful push. -/
theorem c2_commit_outcomes_witness :
    (baseEnv.lpushOk = false →
      (processLine baseEnv rcptSession "DATA").replies =
        ["354 End data with <CR><LF>.<CR><LF>\r\n", "451 Queue error\r\n"] ∧
      (processLine baseEnv rcptSession "DATA").session =
        { rcptSession with state := .StateData, data := readData baseEnv.dataLines } ∧
      (processLine baseEnv rcptSession "DATA").effects.enqueued = none ∧
      (processLine baseEnv rcptSession "DATA").next = .cont) ∧
    (baseEnv.lpushOk = true →
      (processLine baseEnv rcptSession "DATA").replies =
        ["354 End data with <CR><LF>.<CR><LF>\r\n", "250 Message accepted\r\n"] ∧
      (processLine baseEnv rcptSession "DATA").session =
        { rcptSession with state := .StateHelo, mailFrom := "", rcpt := "", data := "" } ∧
      (processLine baseEnv rcptSession "DATA").effects.enqueued =
        some { id := 42, username := rcptSession.userName
               fromField := rcptSession.mailFrom
               toField := rcptSession.rcpt, data := readData baseEnv.dataLines
               time := baseEnv.now, retry := 0, error := none } ∧
      (processLine baseEnv rcptSession "DATA").next = .cont) :=
  c2_commit_outcomes baseEnv rcptSession "DATA" 42 (by decide) rfl rfl rfl rfl

/-! ### C3. -/

lemma splitOnChar_no_sep (sep : Char) (xs : List Char) (h : sep ∉ xs) :
    splitOnChar sep xs = [xs] := by
  induction xs with
  | nil => rfl
  | cons c cs ih =>
    have hc : ¬(c = sep) := by
      rintro rfl
      exact h (List.mem_cons_self _ _)
    have hcs : sep ∉ cs := fun hm => h (List.mem_cons_of_mem c hm)
    unfold splitOnChar
    rw [if_neg hc, ih hcs]

lemma splitOnChar_sep_append (sep : Char) (xs ys : List Char) (h : sep ∉ xs) :
    splitOnChar sep (xs ++ sep :: ys) = xs :: splitOnChar sep ys := by
  induction xs with
  | nil => simp [splitOnChar]
  | cons c cs ih =>
    have hc : ¬(c = sep) := by
      rintro rfl
      exact h (List.mem_cons_self _ _)
    have hcs : sep ∉ cs := fun hm => h (List.mem_cons_of_mem c hm)
    rw [List.cons_append]
    conv_lhs => rw [splitOnChar]
    rw [if_neg hc, ih hcs]

lemma getDomain_bracketed (u d : String) (hu : '@' ∉ u.data) (hd : '@' ∉ d.data) :
    getDomain ("RCPT TO:<" ++ u ++ "@" ++ d ++ ">") = d ++ ">" := by
  have hpre : '@' ∉ "RCPT TO:<".data ++ u.data := by
    intro hm
    rcases List.mem_append.mp hm with h | h
    · revert h; decide
    · exact hu h
  have hys : '@' ∉ d.data ++ ['>'] := by
    intro hm
    rcases List.mem_append.mp hm with h | h
    · exact hd h
    · revert h; decide
  have hdata : ("RCPT TO:<" ++ u ++ "@" ++ d ++ ">").data =
      ("RCPT TO:<".data ++ u.data) ++ '@' :: (d.data ++ ['>']) := by
    show ((("RCPT TO:<".data ++ u.data) ++ "@".data) ++ d.data) ++ ">".data = _
    simp [List.append_assoc]
  unfold getDomain
  rw [hdata, splitOnChar_sep_append _ _ _ hpre, splitOnChar_no_sep _ _ hys]
  rfl

lemma append_gt_ne_local (d : String) : (d ++ ">") ≠ "myserver.local" := by
  intro h
  have h1 : d.data ++ ['>'] = "myserver.local".data := congrArg String.data h
  have h2 : (d.data ++ ['>']).getLast? = some '>' := List.getLast?_concat _
  rw [h1] at h2
  revert h2
  decide

lemma localBranch_bracketed (u d : String) (hu : '@' ∉ u.data) (hd : '@' ∉ d.data) :
    localBranch ("RCPT TO:<" ++ u ++ "@" ++ d ++ ">") = false := by
  unfold localBranch LocalDomains
  rw [getDomain_bracketed u d hu hd]
  simpa using append_gt_ne_local d

lemma authLoginStep_enqueued (env : Env) (s : SMTPSession) :
    (authLoginStep env s).effects.enqueued = none := by
  unfold authLoginStep
  repeat' split
  all_goals rfl

lemma mailFromStep_enqueued (env : Env) (s : SMTPSession) (line : String) :
    (mailFromStep env s line).effects.enqueued = none := by
  unfold mailFromStep
  repeat' split
  all_goals rfl

lemma rcptStep_enqueued (s : SMTPSession) (line : String) :
    (rcptStep s line).effects.enqueued = none := by
  unfold rcptStep
  repeat' split
  all_goals rfl

lemma dataStep_enqueued (env : Env) (s : SMTPSession) (m : QueuedMsg)
    (h : (dataStep env s).effects.enqueued = some m) :
    m.fromField = s.mailFrom ∧ m.toField = s.rcpt ∧ m.retry = 0 := by
  unfold dataStep at h
  split at h
  · simp at h
  · split at h
    · simp at h
    · split at h
      · simp at h
      · split at h
        · simp at h
        · simp at h
          subst h
          exact ⟨rfl, rfl, rfl⟩

lemma mailFromStep_250 (env : Env) (s : SMTPSession) (line : String)
    (h : (mailFromStep env s line).replies = ["250 OK\r\n"]) :
    (mailFromStep env s line).session.mailFrom = line := by
  rcases hv : validateSession s .StateHelo with - | r
  case none =>
    rcases he : env.emailLookup with - | - | e
    · simp [mailFromStep, hv, he] at h
    · by_cases hun : s.userName = "" <;> simp [mailFromStep, hv, he, hun] at h
    · by_cases hun : s.userName = ""
      · simp [mailFromStep, hv, he, hun] at h
      · by_cases haddr : e ≠ trimAngles (trimSpace (strDrop line 10))
        · simp [mailFromStep, hv, he, hun, haddr] at h
        · simp [mailFromStep, hv, he, hun, haddr]
  case some =>
    rcases validateSession_some s _ r hv with rfl | rfl <;>
      simp [mailFromStep, hv] at h

lemma rcptStep_250 (s : SMTPSession) (line : String)
    (h : (rcptStep s line).replies = ["250 OK\r\n"]) :
    (rcptStep s line).session.rcpt = line := by
  rcases hv : validateSession s .StateMail with - | r
  case none => simp [rcptStep, hv]
  case some =>
    rcases validateSession_some s _ r hv with rfl | rfl <;>
      simp [rcptStep, hv] at h

/-- C3: the session stores the full trimmed command lines — a successful
`MAIL FROM:` stores the whole line in `mailFrom` and a successful
`RCPT TO:` stores the whole line in `rcpt`; every enqueued record copies
those lines into its `from`/`to` fields; consequently for a recipient
submitted as `RCPT TO:<u@d>` the worker's `getDomain` yields `d ++ ">"`
(the trailing bracket included) and the local-domain branch is never
taken. -/
theorem c3_queued_full_lines :
    (∀ env s raw, strStarts (trimSpace raw) "MAIL FROM:" = true →
      (processLine env s raw).replies = ["250 OK\r\n"] →
      (processLine env s raw).session.mailFrom = trimSpace raw) ∧
    (∀ env s raw, strStarts (trimSpace raw) "RCPT TO:" = true →
      (processLine env s raw).replies = ["250 OK\r\n"] →
      (processLine env s raw).session.rcpt = trimSpace raw) ∧
    (∀ env s raw m, (processLine env s raw).effects.enqueued = some m →
      m.fromField = s.mailFrom ∧ m.toField = s.rcpt) ∧
    (∀ u d, '@' ∉ u.data → '@' ∉ d.data →
      getDomain ("RCPT TO:<" ++ u ++ "@" ++ d ++ ">") = d ++ ">" ∧
      localBranch ("RCPT TO:<" ++ u ++ "@" ++ d ++ ">") = false) := by
  refine ⟨?_, ?_, ?_, ?_⟩
  · intro env s raw hM h250
    obtain ⟨hA, hH⟩ := mail_line_heads _ hM
    have hd : processLine env s raw = mailFromStep env s (trimSpace raw) :=
      dispatch_mail env s _ hA hH hM
    rw [hd] at h250 ⊢
    exact mailFromStep_250 env s _ h250
  · intro env s raw hR h250
    obtain ⟨hA, hH, hM⟩ := rcpt_line_heads _ hR
    have hd : processLine env s raw = rcptStep s (trimSpace raw) :=
      dispatch_rcpt env s _ hA hH hM hR
    rw [hd] at h250 ⊢
    exact rcptStep_250 s _ h250
  · intro env s raw m h
    unfold processLine dispatchLine at h
    split_ifs at h <;>
      first
      | exact ⟨(dataStep_enqueued env s m h).1, (dataStep_enqueued env s m h).2.1⟩
      | (rw [authLoginStep_enqueued env s] at h; exact Option.noConfusion h)
      | (rw [mailFromStep_enqueued env s (trimSpace raw)] at h;
         exact Option.noConfusion h)
      | (rw [rcptStep_enqueued s (trimSpace raw)] at h; exact Option.noConfusion h)
      | (split at h <;> simp at h)
  · intro u d hu hd
    exact ⟨getDomain_bracketed u d hu hd, localBranch_bracketed u d hu hd⟩

/-- C3 witness: the MAIL FROM line of scenario S1 is stored whole, and
the bracketed recipient `testuser2@example.com` resolves to the domain
`"example.com>"`, which is not local. -/
theorem c3_queued_full_lines_witness :
    (processLine baseEnv heloSession "MAIL FROM:<testuser@example.com>").session.mailFrom =
      trimSpace "MAIL FROM:<testuser@example.com>" ∧
    getDomain ("RCPT TO:<" ++ "testuser2" ++ "@" ++ "example.com" ++ ">") =
      "example.com" ++ ">" ∧
    localBranch ("RCPT TO:<" ++ "testuser2" ++ "@" ++ "example.com" ++ ">") = false :=
  ⟨c3_queued_full_lines.1 baseEnv heloSession "MAIL FROM:<testuser@example.com>"
      (by decide) (by decide),
   (c3_queued_full_lines.2.2.2 "testuser2" "example.com" (by decide) (by decide)).1,
   (c3_queued_full_lines.2.2.2 "testuser2" "example.com" (by decide) (by decide)).2⟩

/-! ### C4. -/

/-- C4: `IncreaseFails` adds one to the stored failure counter (the
store-side increment is Redis `INCR`, which is atomic; the embedding
consumes its post-increment result); when the post-increment count is 1
a 10-minute TTL is attached; and from count 5 on the lock flag is set
with duration `D_base` on counts in [5,10), `3·D_base` on counts in
[10,15) and `6·D_base` on counts ≥ 15, where `D_base` is the configured
10 seconds. -/
theorem c4_note_failure (n : Nat) :
    (authConfig.IncreaseFails n).fails = n + 1 ∧
    (n + 1 = 1 → (authConfig.IncreaseFails n).ttl = some (10 * nsPerMin)) ∧
    (n + 1 ≠ 1 → (authConfig.IncreaseFails n).ttl = none) ∧
    (n + 1 < 5 → (authConfig.IncreaseFails n).lockSet = none) ∧
    (5 ≤ n + 1 → n + 1 < 10 →
      (authConfig.IncreaseFails n).lockSet = some (10 * nsPerSec)) ∧
    (10 ≤ n + 1 → n + 1 < 15 →
      (authConfig.IncreaseFails n).lockSet = some (3 * (10 * nsPerSec))) ∧
    (15 ≤ n + 1 →
      (authConfig.IncreaseFails n).lockSet = some (6 * (10 * nsPerSec))) := by
  unfold authConfig SetupAuth Auth.IncreaseFails
  dsimp only
  split_ifs <;>
    refine ⟨rfl, ?_, ?_, ?_, ?_, ?_, ?_⟩ <;>
    first
    | (intros; rfl)
    | (intros; omega)

/-- C4 witness: the 12th failure (post-increment count 12 ∈ [10,15))
locks for three times the base duration. -/
theorem c4_note_failure_witness :
    (authConfig.IncreaseFails 11).fails = 12 ∧
    (authConfig.IncreaseFails 11).lockSet = some (3 * (10 * nsPerSec)) :=
  ⟨(c4_note_failure 11).1,
   (c4_note_failure 11).2.2.2.2.2.1 (by decide) (by decide)⟩

/-! ### C5. -/

/-- C5: `Validate` increments both counters, applies the configured
5-minute window TTL to each on its 0→1 transition, and returns true iff
the per-identity count stays within 5 and the per-address count within
20; and in the AUTH LOGIN flow the rate-limit check (replying 454 when
it fails, without consulting the lock) precedes the lock check (replying
535 when the account is locked). -/
theorem c5_validate_and_order :
    (∀ ip0 user0 : Int,
      (rlConfig.Validate ip0 user0).ipCount = ip0 + 1 ∧
      (rlConfig.Validate ip0 user0).userCount = user0 + 1 ∧
      (ip0 + 1 = 1 → (rlConfig.Validate ip0 user0).ipExpire = some (5 * nsPerMin)) ∧
      (ip0 + 1 ≠ 1 → (rlConfig.Validate ip0 user0).ipExpire = none) ∧
      (user0 + 1 = 1 → (rlConfig.Validate ip0 user0).userExpire = some (5 * nsPerMin)) ∧
      (user0 + 1 ≠ 1 → (rlConfig.Validate ip0 user0).userExpire = none) ∧
      ((rlConfig.Validate ip0 user0).ok = true ↔ (user0 + 1 ≤ 5 ∧ ip0 + 1 ≤ 20))) ∧
    (∀ env s raw, strStarts (trimSpace raw) "AUTH LOGIN" = true →
      (env.rateOk = false →
        (processLine env s raw).replies =
          [promptUser, "454 Too many login attempts\r\n"] ∧
        (processLine env s raw).effects.validateCalled = true ∧
        (processLine env s raw).effects.checkLockCalled = false) ∧
      (env.rateOk = true → env.locked = true →
        (processLine env s raw).replies =
          [promptUser, "535 Account temporarily locked\r\n"] ∧
        (processLine env s raw).effects.checkLockCalled = true)) := by
  constructor
  · intro ip0 user0
    unfold rlConfig NewRateLimit RateLimiter.Validate
    dsimp only
    refine ⟨rfl, rfl, fun h => ?_, fun h => ?_, fun h => ?_, fun h => ?_, ?_⟩
    · rw [if_pos h]
    · rw [if_neg h]
    · rw [if_pos h]
    · rw [if_neg h]
    · simp only [Bool.not_eq_true', Bool.or_eq_false_iff, decide_eq_false_iff_not,
                 not_lt]
      omega
  · intro env s raw hA
    have hd : processLine env s raw = authLoginStep env s := dispatch_auth env s _ hA
    rw [hd]
    refine ⟨fun hr => ?_, fun hr hl => ?_⟩
    · simp [authLoginStep, hr]
    · simp [authLoginStep, hr, hl]

/-- C5 witness: fresh counters pass the limiter, and a rate-limited AUTH
LOGIN exchange on a fresh session gets 454 with the lock never
consulted. -/
theorem c5_validate_and_order_witness :
    (rlConfig.Validate 0 0).ok = true ∧
    (processLine { baseEnv with rateOk := false } freshSession "AUTH LOGIN").replies =
      [promptUser, "454 Too many login attempts\r\n"] ∧
    (processLine { baseEnv with rateOk := false } freshSession
        "AUTH LOGIN").effects.checkLockCalled = false :=
  ⟨((c5_validate_and_order.1 0 0).2.2.2.2.2.2).mpr (by decide),
   (c5_validate_and_order.2 { baseEnv with rateOk := false } freshSession
      "AUTH LOGIN" (by decide)|>.1 rfl).1,
   (c5_validate_and_order.2 { baseEnv with rateOk := false } freshSession
      "AUTH LOGIN" (by decide)|>.1 rfl).2.2⟩

/-! ### C6. -/

/-- C6: for an authenticated session in state HELO, `MAIL FROM:<x>`
succeeds with 250 — storing the full line and moving to state MAIL — iff
the argument, after trimming whitespace and the surrounding angle
brackets, equals the bound email fetched from the registry; on a
mismatch the reply is 535 and the session is unchanged (state stays
HELO); a NOT_FOUND registry read or an empty session username replies
535, and a store error (with a non-empty username) replies 451. -/
theorem c6_mail_from_auth (env : Env) (s : SMTPSession) (raw x : String)
    (hline : trimSpace raw = "MAIL FROM:" ++ x)
    (hauth : s.authenticated = true) (hst : s.state = .StateHelo) :
    (env.emailLookup = .notFound →
      (processLine env s raw).replies = ["535 Authentication failed\r\n"] ∧
      (processLine env s raw).session = s) ∧
    (s.userName = "" →
      (processLine env s raw).replies = ["535 Authentication failed\r\n"] ∧
      (processLine env s raw).session = s) ∧
    (env.emailLookup = .storeError → s.userName ≠ "" →
      (processLine env s raw).replies = ["451 Local error\r\n"] ∧
      (processLine env s raw).session = s) ∧
    (∀ e, env.emailLookup = .found e → s.userName ≠ "" →
      (((processLine env s raw).replies = ["250 OK\r\n"] ∧
          (processLine env s raw).session =
            { s with state := .StateMail, mailFrom := "MAIL FROM:" ++ x }) ↔
        e = trimAngles (trimSpace x)) ∧
      (e ≠ trimAngles (trimSpace x) →
        (processLine env s raw).replies = ["535 Authentication failed\r\n"] ∧
        (processLine env s raw).session = s)) := by
  have hM : strStarts ("MAIL FROM:" ++ x) "MAIL FROM:" = true :=
    strStarts_self_append _ _
  obtain ⟨hA, hH⟩ := mail_line_heads _ hM
  have hd : processLine env s raw = mailFromStep env s ("MAIL FROM:" ++ x) := by
    unfold processLine
    rw [hline]
    exact dispatch_mail env s _ hA hH hM
  have hv : validateSession s .StateHelo = none := validateSession_none s _ hauth hst
  have haddr : trimAngles (trimSpace (strDrop ("MAIL FROM:" ++ x) 10)) =
      trimAngles (trimSpace x) := by rw [strDrop_mail]
  refine ⟨fun he => ?_, fun hun => ?_, fun he hun => ?_,
          fun e he hun => ⟨?_, fun hne => ?_⟩⟩
  · rw [hd]
    simp [mailFromStep, hv, he]
  · rw [hd]
    rcases he : env.emailLookup with - | - | e <;>
      simp [mailFromStep, hv, he, hun]
  · rw [hd]
    simp [mailFromStep, hv, he, hun]
  · by_cases heq : e = trimAngles (trimSpace x)
    · constructor
      · intro _
        exact heq
      · intro _
        rw [hd]
        simp [mailFromStep, hv, he, hun, haddr, heq]
    · constructor
      · intro hcon
        exfalso
        have hrep : (processLine env s raw).replies =
            ["535 Authentication failed\r\n"] := by
          rw [hd]
          simp [mailFromStep, hv, he, hun, haddr, heq]
        rw [hrep] at hcon
        exact absurd hcon.1 (by decide)
      · intro h'
        exact absurd h' heq
  · rw [hd]
    simp [mailFromStep, hv, he, hun, haddr, hne]

/-- C6 witness: scenario S1's MAIL FROM with the bound email succeeds
with 250 and stores the full line. -/
theorem c6_mail_from_auth_witness :
    (processLine baseEnv heloSession "MAIL FROM:<testuser@example.com>").replies =
      ["250 OK\r\n"] ∧
    (processLine baseEnv heloSession "MAIL FROM:<testuser@example.com>").session =
      { heloSession with state := .StateMail
                         mailFrom := "MAIL FROM:" ++ "<testuser@example.com>" } :=
  ((c6_mail_from_auth baseEnv heloSession "MAIL FROM:<testuser@example.com>"
      "<testuser@example.com>" (by decide) rfl rfl).2.2.2
    "testuser@example.com" rfl (by decide)).1.mpr (by decide)

/-! ### C7. -/

/-- C7: after the password is received in the AUTH LOGIN exchange — with
the rate limiter passing and no lock — a NOT_FOUND lookup counts a
failure and replies 535; a store error replies 451 without counting a
failure; a hash mismatch counts a failure and replies 535; a match sets
`authenticated`, stores the username in the session, deletes the failure
counter, and replies 235. -/
theorem c7_auth_password_phase (env : Env) (s : SMTPSession) (raw : String)
    (hA : strStarts (trimSpace raw) "AUTH LOGIN" = true)
    (hrate : env.rateOk = true) (hlock : env.locked = false) :
    (env.passwordLookup = .notFound →
      (processLine env s raw).replies =
        [promptUser, promptPass, "535 Authentication failed\r\n"] ∧
      (processLine env s raw).effects.increaseFailsCalled = true ∧
      (processLine env s raw).session = s) ∧
    (env.passwordLookup = .storeError →
      (processLine env s raw).replies =
        [promptUser, promptPass, "451 Local error\r\n"] ∧
      (processLine env s raw).effects.increaseFailsCalled = false ∧
      (processLine env s raw).session = s) ∧
    (∀ h, env.passwordLookup = .found h → env.bcryptOk = false →
      (processLine env s raw).replies =
        [promptUser, promptPass, "535 Authentication failed\r\n"] ∧
      (processLine env s raw).effects.increaseFailsCalled = true ∧
      (processLine env s raw).session = s) ∧
    (∀ h, env.passwordLookup = .found h → env.bcryptOk = true →
      (processLine env s raw).replies =
        [promptUser, promptPass, "235 Authentication successful\r\n"] ∧
      (processLine env s raw).session =
        { s with authenticated := true, state := .StateInit
                 userName := env.userDecoded } ∧
      (processLine env s raw).effects.failCounterDeleted = true ∧
      (processLine env s raw).effects.increaseFailsCalled = false) := by
  have hd : processLine env s raw = authLoginStep env s := dispatch_auth env s _ hA
  refine ⟨fun hp => ?_, fun hp => ?_, fun h hp hb => ?_, fun h hp hb => ?_⟩ <;>
    rw [hd]
  · simp [authLoginStep, hrate, hlock, hp]
  · simp [authLoginStep, hrate, hlock, hp]
  · simp [authLoginStep, hrate, hlock, hp, hb]
  · simp [authLoginStep, hrate, hlock, hp, hb]

/-- C7 witness: scenario S2 — a wrong password counts a failure, replies
535, and leaves the session unchanged. -/
theorem c7_auth_password_phase_witness :
    (processLine { baseEnv with bcryptOk := false } freshSession "AUTH LOGIN").replies =
      [promptUser, promptPass, "535 Authentication failed\r\n"] ∧
    (processLine { baseEnv with bcryptOk := false } freshSession
        "AUTH LOGIN").effects.increaseFailsCalled = true ∧
    (processLine { baseEnv with bcryptOk := false } freshSession
        "AUTH LOGIN").session = freshSession :=
  (c7_auth_password_phase { baseEnv with bcryptOk := false } freshSession
      "AUTH LOGIN" (by decide) rfl rfl).2.2.1 "bcrypt-hash" rfl rfl

/-! ### C8. -/

/-- A message that has already failed five times. -/
def retryMsg5 : QueuedMsg :=
  { id := 7, username := "u", fromField := "MAIL FROM:<a@b>"
    toField := "RCPT TO:<c@d>", data := "x\n", time := 100
    retry := 5, error := none }

/-- A message that has failed twice. -/
def retryMsg2 : QueuedMsg :=
  { id := 8, username := "u", fromField := "MAIL FROM:<a@b>"
    toField := "RCPT TO:<c@d>", data := "y\n", time := 200
    retry := 2, error := none }

/-- C8 counterexample: on the 6th failure (stored retry count 5) the
payload pushed to the dead-letter list still carries `retry = 5` — the
record's retry field is not incremented by one on that path as the claim
states (only the local counter deciding the branch is). -/
theorem c8_counterexample :
    (AddToRetry retryMsg5 "dial timeout" 3).deadLetter =
      some { retryMsg5 with error := some "dial timeout" } ∧
    (AddToRetry retryMsg5 "dial timeout" 3).deadLetter.map QueuedMsg.retry = some 5 ∧
    (AddToRetry retryMsg5 "dial timeout" 3).deadLetter.map QueuedMsg.retry ≠ some 6 ∧
    (AddToRetry retryMsg5 "dial timeout" 3).retryInsert = none := by decide

/-- C8 (amended): `AddToRetry` records the error on the message and
computes the incremented count `retry + 1`; when that exceeds 5 the
message goes to the dead-letter list — with its `retry` field left at
the old value — and is not inserted into the retry set; otherwise the
incremented count is stored in the message, which is inserted into the
retry sorted set with score equal to the bucket, and nothing goes to the
dead-letter list. In particular on the 6th failure the message appears
in the dead-letter list and nowhere else. -/
theorem c8_add_retry (msg : QueuedMsg) (err : String) (bucket : Nat) :
    (msg.retry + 1 > 5 →
      (AddToRetry msg err bucket).deadLetter = some { msg with error := some err } ∧
      (AddToRetry msg err bucket).retryInsert = none) ∧
    (msg.retry + 1 ≤ 5 →
      (AddToRetry msg err bucket).deadLetter = none ∧
      (AddToRetry msg err bucket).retryInsert =
        some ({ msg with retry := msg.retry + 1, error := some err }, bucket)) := by
  unfold AddToRetry
  dsimp only
  split_ifs with h
  · exact ⟨fun _ => ⟨rfl, rfl⟩, fun h2 => absurd h (by omega)⟩
  · exact ⟨fun h2 => absurd h2 h, fun _ => ⟨rfl, rfl⟩⟩

/-- C8 witness: a third failure is re-inserted into the retry set with
the incremented count and the bucket as score. -/
theorem c8_add_retry_witness :
    (AddToRetry retryMsg2 "dns failure" 2).deadLetter = none ∧
    (AddToRetry retryMsg2 "dns failure" 2).retryInsert =
      some ({ retryMsg2 with retry := 3, error := some "dns failure" }, 2) :=
  (c8_add_retry retryMsg2 "dns failure" 2).2 (by decide)

/-! ### C9. -/

lemma strAppendAssoc (a b c : String) : a ++ b ++ c = a ++ (b ++ c) :=
  congrArg String.mk (List.append_assoc a.data b.data c.data)

/-- C9 counterexample: the accumulated body appends a newline after every
line, so for the single body line `a` the result is `"a\n"`, not the
newline-join `"a"` the claim describes. -/
theorem c9_counterexample :
    readData ["a", "."] = "a\n" ∧
    joinedByNewline (dotFreeLines ["a", "."]) = "a" ∧
    readData ["a", "."] ≠ joinedByNewline (dotFreeLines ["a", "."]) := by decide

/-- C9 (amended): the DATA loop reads lines until one trims to `"."`; the
accumulated body is the preceding (trimmed) lines joined by newline with
one trailing newline appended when there is at least one line; a
terminator sent first yields the empty body. -/
theorem c9_data_body :
    (∀ l ls, trimSpace l = "." → readData (l :: ls) = "") ∧
    (∀ ls, readData ls =
      joinedByNewline (dotFreeLines ls) ++
        (if dotFreeLines ls = [] then "" else "\n")) := by
  constructor
  · intro l ls h
    simp only [readData]
    rw [if_pos h]
  · intro ls
    induction ls with
    | nil => simp [readData, dotFreeLines, joinedByNewline]
    | cons l ls ih =>
      by_cases h : trimSpace l = "."
      · simp only [readData, dotFreeLines]
        simp only [if_pos h]
        simp [joinedByNewline]
      · simp only [readData, dotFreeLines]
        simp only [if_neg h]
        rcases hd : dotFreeLines ls with - | ⟨l', ls''⟩
        · rw [hd] at ih
          simp only [joinedByNewline, if_pos rfl, String.append_empty] at ih
          simp only [ih]
          simp [joinedByNewline, String.append_empty]
        · rw [hd] at ih
          simp only [if_neg (List.cons_ne_nil l' ls'')] at ih
          rw [ih]
          simp only [joinedByNewline, if_neg (List.cons_ne_nil _ _),
                     if_neg (List.cons_ne_nil _ _)]
          simp [strAppendAssoc]

/-- C9 witness: the empty body is permitted, and the two-line body of
scenario S1 is the newline-join of its lines plus a trailing newline. -/
theorem c9_data_body_witness :
    readData ["."] = "" ∧
    readData ["Subject: Test", "Hello World!", "."] =
      joinedByNewline (dotFreeLines ["Subject: Test", "Hello World!", "."]) ++ "\n" :=
  ⟨c9_data_body.1 "." [] (by decide),
   (c9_data_body.2 ["Subject: Test", "Hello World!", "."]).trans (by decide)⟩

/-! ### C10. -/

/-- C10 counterexample: with the base64 decode of the username line
failing and the rate limiter rejecting the (garbage) username, the
exchange ends with 454, not 535: a decode failure does not force a 535
final reply. -/
theorem c10_counterexample :
    ({ baseEnv with userDecodeOk := false, rateOk := false } : Env).userDecodeOk =
      false ∧
    (processLine { baseEnv with userDecodeOk := false, rateOk := false }
        freshSession "AUTH LOGIN").replies.getLast? =
      some "454 Too many login attempts\r\n" ∧
    ∀ r ∈ (processLine { baseEnv with userDecodeOk := false, rateOk := false }
        freshSession "AUTH LOGIN").replies, replyCode r ≠ 535 := by decide

/-- C10 (amended): the source drops the base64 decode error, so the
exchange proceeds with whatever bytes the decoder produced and its
outcome does not depend on the decode-success flag at all; a decode
failure therefore does not by itself force a 535 final reply — when the
resulting username passes the rate limiter, is not locked, and misses
the registry, the final reply is 535, but other environments end
differently (a rate-limited attempt ends with 454). -/
theorem c10_decode_ignored (env : Env) (s : SMTPSession) (raw : String)
    (hA : strStarts (trimSpace raw) "AUTH LOGIN" = true)
    (_hdec : env.userDecodeOk = false) :
    (∀ b, processLine { env with userDecodeOk := b } s raw = processLine env s raw) ∧
    (env.rateOk = true → env.locked = false → env.passwordLookup = .notFound →
      (processLine env s raw).replies.getLast? =
        some "535 Authentication failed\r\n") := by
  refine ⟨fun b => rfl, fun hr hl hp => ?_⟩
  have hd : processLine env s raw = authLoginStep env s := dispatch_auth env s _ hA
  rw [hd]
  simp [authLoginStep, hr, hl, hp]

/-- C10 witness: the decode flag is irrelevant to the step outcome, and
the undecodable-username exchange of the claim ends in 535 when the
lookup misses. -/
theorem c10_decode_ignored_witness :
    processLine { baseEnv with userDecodeOk := true } freshSession "AUTH LOGIN" =
      processLine { baseEnv with userDecodeOk := false } freshSession "AUTH LOGIN" ∧
    (processLine { baseEnv with userDecodeOk := false, passwordLookup := .notFound }
        freshSession "AUTH LOGIN").replies.getLast? =
      some "535 Authentication failed\r\n" :=
  ⟨(c10_decode_ignored { baseEnv with userDecodeOk := false } freshSession
      "AUTH LOGIN" (by decide) rfl).1 true,
   (c10_decode_ignored
      { baseEnv with userDecodeOk := false, passwordLookup := .notFound }
      freshSession "AUTH LOGIN" (by decide) rfl).2 rfl rfl rfl⟩

end SimpleSMTP

